import Mathlib

/-!
Verification of the ArchFlow backend (`src/backend/main.py`): the diagram
state model (pydantic `GraphState`), the single-file state store
(`save_graph`, `load_graph`, `clear_graph`), and the Mermaid text export
transform (`export_mermaid`), shallowly embedded in Lean.
-/

namespace ArchFlow

/-- A JSON value as produced by Python's `json.load`.  Numbers are modelled
as rationals (floats and ints collapse to one constructor; no claim needs
the int/float distinction of Python). Objects are association lists: keys
coming from `json.load` are unique. -/
inductive Json where
  | null : Json
  | bool (b : Bool) : Json
  | num (q : Rat) : Json
  | str (s : String) : Json
  | arr (elems : List Json) : Json
  | obj (kvs : List (String × Json)) : Json

/-- Python `dict.get(k)`: look a key up in an association list, `none` when
absent. -/
def dictGet (kvs : List (String × Json)) (k : String) : Option Json :=
  match kvs with
  | [] => none
  | (k', v) :: rest => if k' = k then some v else dictGet rest k

/-- Python `dict.get(k, d)`. -/
def dictGetD (kvs : List (String × Json)) (k : String) (d : Json) : Json :=
  (dictGet kvs k).getD d

/-- Python truthiness of a JSON-decoded value, as tested by
`if color := node.data.get("color"):` — `None`, `False`, `0`, `""`, `[]`
and `{}` are falsy, everything else truthy. -/
def pyTruthy : Json → Bool
  | .null => false
  | .bool b => b
  | .num q => q ≠ 0
  | .str s => s ≠ ""
  | .arr elems => !elems.isEmpty
  | .obj kvs => !kvs.isEmpty

/-- Python `str()` of a JSON-decoded value, as interpolated by the f-strings
of `export_mermaid`.  Every theorem below exercises only the string case;
the rendering of numbers, lists and dicts is a placeholder (Python's exact
`repr`-based spelling is not reproduced and nothing relies on it). -/
def pyStr : Json → String
  | .null => "None"
  | .bool true => "True"
  | .bool false => "False"
  | .num q => toString q
  | .str s => s
  | .arr _ => "[...]"
  | .obj _ => "\x7b...\x7d"

/-- Python `s.replace(old, new)` for a single-character pattern and
single-character replacement, the only form `export_mermaid` uses
(`.replace("-", "_").replace(" ", "_")`): every occurrence of the
character is substituted. -/
def pyReplace1 (s : String) (old new : Char) : String :=
  String.mk (s.data.map (fun c => if c = old then new else c))

/-- The pydantic `GraphNode` model: `id`, `type`, `position`, `data` are all
required; `position` and `data` are free-form dicts (arbitrary JSON
objects). -/
structure GraphNode where
  id : String
  type : String
  position : List (String × Json)
  data : List (String × Json)

/-- The pydantic `GraphEdge` model: `id`, `source`, `target` required;
`type : Optional[str] = "smoothstep"`, `animated : Optional[bool] = False`,
`style : Optional[dict] = None`.  An `Optional[T]` field holds `none`
exactly when JSON `null` was supplied; a missing field receives the stated
default. -/
structure GraphEdge where
  id : String
  source : String
  target : String
  type : Option String
  animated : Option Bool
  style : Option (List (String × Json))

/-- The pydantic `Viewport` model: three required floats. -/
structure Viewport where
  x : Rat
  y : Rat
  zoom : Rat

/-- The pydantic `GraphState` model: `nodes`, `edges` required lists,
`viewport : Optional[Viewport] = None`. -/
structure GraphState where
  nodes : List GraphNode
  edges : List GraphEdge
  viewport : Option Viewport

/-! ## Text export transform (`export_mermaid`) -/

/-- The `shape_map` dict of `export_mermaid`, each Python format-string
template represented as the function `label ↦ template.format(label)`
(with Python's brace escaping already applied: the source template
`"{{{{{}}}}}"` renders as two braces around the label, `"{{{}}}"` as one). -/
def shape_map (ty : String) : Option (String → String) :=
  if ty = "PostgreSQL" then some (fun l => "[(" ++ l ++ ")]")
  else if ty = "MySQL" then some (fun l => "[(" ++ l ++ ")]")
  else if ty = "MongoDB" then some (fun l => "[(" ++ l ++ ")]")
  else if ty = "Redis" then some (fun l => "[(" ++ l ++ ")]")
  else if ty = "Snowflake" then some (fun l => "[(" ++ l ++ ")]")
  else if ty = "LLM" then some (fun l => "\x7b\x7b" ++ l ++ "\x7d\x7d")
  else if ty = "VectorDB" then some (fun l => "\x7b\x7b" ++ l ++ "\x7d\x7d")
  else if ty = "ModelTraining" then some (fun l => "\x7b\x7b" ++ l ++ "\x7d\x7d")
  else if ty = "Router" then some (fun l => "\x7b" ++ l ++ "\x7d")
  else if ty = "Filter" then some (fun l => "\x7b" ++ l ++ "\x7d")
  else none

/-- The generic fallback shape `"({})"` used when `node_type` is not a key
of `shape_map`. -/
def fallbackShape (l : String) : String := "(" ++ l ++ ")"

/-- The label computed by the node loop:
`node.data.get("label", node.data.get("nodeType", "Node"))`, interpolated
into the f-string by `str()`. -/
def labelOf (data : List (String × Json)) : String :=
  pyStr (dictGetD data "label" (dictGetD data "nodeType" (.str "Node")))

/-- The shape template selected by the node loop:
`shape_map.get(node.data.get("nodeType", "default"), "({})")`.  The lookup
only ever hits a key when the `nodeType` value is a string. -/
def shapeOf (data : List (String × Json)) : String → String :=
  match dictGetD data "nodeType" (.str "default") with
  | .str ty => (shape_map ty).getD fallbackShape
  | _ => fallbackShape

/-- One line of the node loop:
`f"    {node_id}{shape.format(label)}"` with
`node_id = node.id.replace("-", "_").replace(" ", "_")`. -/
def nodeLine (node : GraphNode) : String :=
  "    " ++ pyReplace1 (pyReplace1 node.id '-' '_') ' ' '_'
    ++ shapeOf node.data (labelOf node.data)

/-- One line of the edge loop: `f"    {source} --> {target}"` with both
endpoints sanitized like node ids. -/
def edgeLine (edge : GraphEdge) : String :=
  "    " ++ pyReplace1 (pyReplace1 edge.source '-' '_') ' ' '_'
    ++ " --> " ++ pyReplace1 (pyReplace1 edge.target '-' '_') ' ' '_'

/-- The style loop: for each node, `if color := node.data.get("color"):`
emits `f"    style {node_id} fill:{color}"`; a falsy (absent, empty, null…)
color emits nothing. -/
def styleLines (nodes : List GraphNode) : List String :=
  nodes.filterMap (fun node =>
    match dictGet node.data "color" with
    | some color =>
        if pyTruthy color then
          some ("    style " ++ pyReplace1 (pyReplace1 node.id '-' '_') ' ' '_'
            ++ " fill:" ++ pyStr color)
        else none
    | none => none)

/-- The `lines` list built by `export_mermaid`: header, node lines, a blank
line, edge lines, a blank line, style lines. -/
def exportLines (state : GraphState) : List String :=
  ["graph LR"] ++ state.nodes.map nodeLine
    ++ [""] ++ state.edges.map edgeLine
    ++ [""] ++ styleLines state.nodes

/-- The Mermaid code returned by `export_mermaid`:
`"\n".join(lines)`. -/
def exportMermaid (state : GraphState) : String :=
  String.intercalate "\n" (exportLines state)

/-! ## Request validation (pydantic parsing of a `GraphState` body)

FastAPI parses the JSON request body into the pydantic `GraphState` model
before the handler runs; a failure is reported as a validation error
locating the offending field (e.g. `("nodes", 0, "id")`) and the handler —
hence the store — is never reached. -/

/-- A pydantic validation error: the location path of the offending field
(list indices rendered as decimal strings) and a message. -/
structure ValidationError where
  loc : List String
  msg : String

/-- Prefix a location step onto a validation error. -/
def withLoc (p : String) : Except ValidationError α → Except ValidationError α
  | .error e => .error ⟨p :: e.loc, e.msg⟩
  | .ok a => .ok a

/-- Require field `k` to be present with a string value. -/
def requireStr (kvs : List (String × Json)) (k : String) :
    Except ValidationError String :=
  match dictGet kvs k with
  | none => .error ⟨[k], "Field required"⟩
  | some (.str s) => .ok s
  | some _ => .error ⟨[k], "Input should be a valid string"⟩

/-- Require field `k` to be present with an object value (a Python `dict`). -/
def requireDict (kvs : List (String × Json)) (k : String) :
    Except ValidationError (List (String × Json)) :=
  match dictGet kvs k with
  | none => .error ⟨[k], "Field required"⟩
  | some (.obj o) => .ok o
  | some _ => .error ⟨[k], "Input should be a valid dictionary"⟩

/-- Require field `k` to be present with a number value (a `float`). -/
def requireNum (kvs : List (String × Json)) (k : String) :
    Except ValidationError Rat :=
  match dictGet kvs k with
  | none => .error ⟨[k], "Field required"⟩
  | some (.num q) => .ok q
  | some _ => .error ⟨[k], "Input should be a valid number"⟩

/-- Parse one `GraphNode`: `id`, `type`, `position`, `data` all required.
Unknown keys are ignored (pydantic's default). -/
def decodeNode (j : Json) : Except ValidationError GraphNode :=
  match j with
  | .obj kvs => do
      let id ← requireStr kvs "id"
      let type ← requireStr kvs "type"
      let position ← requireDict kvs "position"
      let data ← requireDict kvs "data"
      .ok ⟨id, type, position, data⟩
  | _ => .error ⟨[], "Input should be a valid dictionary or instance of GraphNode"⟩

/-- Parse one `GraphEdge`: `id`, `source`, `target` required; `type`,
`animated`, `style` optional with defaults `"smoothstep"`, `False`, `None`
(an explicit JSON `null` yields `None`). -/
def decodeEdge (j : Json) : Except ValidationError GraphEdge :=
  match j with
  | .obj kvs => do
      let id ← requireStr kvs "id"
      let source ← requireStr kvs "source"
      let target ← requireStr kvs "target"
      let type ← match dictGet kvs "type" with
        | none => .ok (some "smoothstep")
        | some .null => .ok none
        | some (.str s) => .ok (some s)
        | some _ => .error ⟨["type"], "Input should be a valid string"⟩
      let animated ← match dictGet kvs "animated" with
        | none => .ok (some false)
        | some .null => .ok none
        | some (.bool b) => .ok (some b)
        | some _ => .error ⟨["animated"], "Input should be a valid boolean"⟩
      let style ← match dictGet kvs "style" with
        | none => .ok none
        | some .null => .ok none
        | some (.obj o) => .ok (some o)
        | some _ => .error ⟨["style"], "Input should be a valid dictionary"⟩
      .ok ⟨id, source, target, type, animated, style⟩
  | _ => .error ⟨[], "Input should be a valid dictionary or instance of GraphEdge"⟩

/-- Parse a `Viewport`: `x`, `y`, `zoom` required floats. -/
def decodeViewport (j : Json) : Except ValidationError Viewport :=
  match j with
  | .obj kvs => do
      let x ← requireNum kvs "x"
      let y ← requireNum kvs "y"
      let zoom ← requireNum kvs "zoom"
      .ok ⟨x, y, zoom⟩
  | _ => .error ⟨[], "Input should be a valid dictionary or instance of Viewport"⟩

/-- Parse each element of a list field, prefixing errors with the element
index. -/
def decodeListFrom (dec : Json → Except ValidationError α) :
    Nat → List Json → Except ValidationError (List α)
  | _, [] => .ok []
  | i, j :: rest => do
      let a ← withLoc (toString i) (dec j)
      let as ← decodeListFrom dec (i + 1) rest
      .ok (a :: as)

/-- Parse the whole `GraphState` body: `nodes` and `edges` required lists,
`viewport` optional (absent or `null` gives `None`).  Error locations
mirror pydantic's, e.g. `["nodes", "0", "id"]`. -/
def decodeGraphState (j : Json) : Except ValidationError GraphState :=
  match j with
  | .obj kvs => do
      let nodesJson ← match dictGet kvs "nodes" with
        | none => .error ⟨["nodes"], "Field required"⟩
        | some (.arr elems) => .ok elems
        | some _ => .error ⟨["nodes"], "Input should be a valid list"⟩
      let edgesJson ← match dictGet kvs "edges" with
        | none => .error ⟨["edges"], "Field required"⟩
        | some (.arr elems) => .ok elems
        | some _ => .error ⟨["edges"], "Input should be a valid list"⟩
      let nodes ← withLoc "nodes" (decodeListFrom decodeNode 0 nodesJson)
      let edges ← withLoc "edges" (decodeListFrom decodeEdge 0 edgesJson)
      let viewport ← match dictGet kvs "viewport" with
        | none => .ok none
        | some .null => .ok none
        | some v => withLoc "viewport" ((decodeViewport v).map some)
      .ok ⟨nodes, edges, viewport⟩
  | _ => .error ⟨[], "Input should be a valid dictionary or instance of GraphState"⟩

/-! ## Serialization (`model_dump` followed by `json.dump`) -/

/-- `model_dump` of a `GraphNode`: every declared field, in declaration
order. -/
def encodeNode (n : GraphNode) : Json :=
  .obj [("id", .str n.id), ("type", .str n.type),
        ("position", .obj n.position), ("data", .obj n.data)]

/-- `model_dump` of a `GraphEdge`: every declared field, in declaration
order; an `Optional` field holding `None` dumps as JSON `null`. -/
def encodeEdge (e : GraphEdge) : Json :=
  .obj [("id", .str e.id), ("source", .str e.source), ("target", .str e.target),
        ("type", match e.type with | none => .null | some s => .str s),
        ("animated", match e.animated with | none => .null | some b => .bool b),
        ("style", match e.style with | none => .null | some o => .obj o)]

/-- `model_dump` of a `Viewport`. -/
def encodeViewport (v : Viewport) : Json :=
  .obj [("x", .num v.x), ("y", .num v.y), ("zoom", .num v.zoom)]

/-- `model_dump` of a `GraphState`, the JSON document `save_graph` writes
to the graph file. -/
def encodeGraphState (s : GraphState) : Json :=
  .obj [("nodes", .arr (s.nodes.map encodeNode)),
        ("edges", .arr (s.edges.map encodeEdge)),
        ("viewport", match s.viewport with | none => .null | some v => encodeViewport v)]

/-! ## The state store (`GRAPH_FILE` and the three handlers) -/

/-- Content of the graph file: either a well-formed JSON document, or bytes
that `json.load` cannot parse. -/
inductive FileContent where
  | json (j : Json) : FileContent
  | malformed : FileContent

/-- The persistent store: a single optional file at `GRAPH_FILE`
(`none` = the file does not exist). -/
structure Store where
  file : Option FileContent

/-- The response of `save_graph` on success (`SaveResponse`). -/
structure SaveResponse where
  status : String
  message : String
  nodeCount : Nat
  edgeCount : Nat

/-- Outcome of a save request: a `SaveResponse`, or the validation error
FastAPI reports before the handler runs. -/
inductive SaveOutcome where
  | ok (r : SaveResponse) : SaveOutcome
  | validationError (e : ValidationError) : SaveOutcome

/-- `save_graph`: FastAPI first validates the body into `GraphState`; on
failure the handler never runs and the file is untouched.  On success the
handler overwrites the file with `model_dump` of the state and reports the
node and edge counts. -/
def save_graph (st : Store) (body : Json) : Store × SaveOutcome :=
  match decodeGraphState body with
  | .error e => (st, .validationError e)
  | .ok s =>
      (⟨some (.json (encodeGraphState s))⟩,
       .ok ⟨"success", "Graph saved successfully",
            s.nodes.length, s.edges.length⟩)

/-- Outcome of a load request: the JSON document returned to the client,
or the HTTP 500 error raised when `json.load` fails on the file. -/
inductive LoadOutcome where
  | ok (j : Json) : LoadOutcome
  | error : LoadOutcome

/-- The canonical empty state `load_graph` returns when the graph file does
not exist. -/
def emptyStateJson : Json :=
  .obj [("nodes", .arr []), ("edges", .arr []),
        ("viewport", .obj [("x", .num 0), ("y", .num 0), ("zoom", .num 1)])]

/-- `load_graph`: if the file exists, parse it with `json.load` and return
the parsed document verbatim (no validation against `GraphState`); a parse
failure surfaces as an HTTP 500.  If the file does not exist, return the
canonical empty state. -/
def load_graph (st : Store) : LoadOutcome :=
  match st.file with
  | some (.json j) => .ok j
  | some .malformed => .error
  | none => .ok emptyStateJson

/-- The response of `clear_graph` (always a success, whether or not the
file existed). -/
structure ClearResponse where
  status : String
  message : String

/-- `clear_graph`: unlink the file if it exists, then report success. -/
def clear_graph (_st : Store) : Store × ClearResponse :=
  (⟨none⟩, ⟨"success", "Graph cleared"⟩)

/-! ## Spec-side definitions

These follow the spec's words, to be compared with the embedded code. -/

/-- The spec's sanitized identifier: every `-` and every space replaced by
`_`. -/
def sanitizeId (s : String) : String :=
  pyReplace1 (pyReplace1 s '-' '_') ' ' '_'

/-- The spec's Diagram State shape test: a persisted JSON document has the
Diagram State shape exactly when it parses back into the `GraphState`
model. -/
def hasDiagramStateShape (j : Json) : Bool :=
  match decodeGraphState j with
  | .ok _ => true
  | .error _ => false

/-! ## Round-trip lemmas -/

theorem decodeNode_encodeNode (n : GraphNode) : decodeNode (encodeNode n) = .ok n := rfl

theorem decodeEdge_encodeEdge (e : GraphEdge) : decodeEdge (encodeEdge e) = .ok e := by
  obtain ⟨i, s, t, ty, an, st⟩ := e
  cases ty <;> cases an <;> cases st <;> rfl

theorem decodeViewport_encodeViewport (x y zoom : Rat) :
    decodeViewport (.obj [("x", .num x), ("y", .num y), ("zoom", .num zoom)]) =
      .ok ⟨x, y, zoom⟩ := rfl

theorem decodeListFrom_map (dec : Json → Except ValidationError α)
    (enc : α → Json) (h : ∀ a, dec (enc a) = .ok a) :
    ∀ (l : List α) (i : Nat), decodeListFrom dec i (l.map enc) = .ok l := by
  intro l
  induction l with
  | nil => intro i; rfl
  | cons a rest ih =>
      intro i
      simp [decodeListFrom, h a, withLoc, ih (i + 1), bind, Except.bind]

theorem decodeGraphState_encodeGraphState (s : GraphState) :
    decodeGraphState (encodeGraphState s) = .ok s := by
  obtain ⟨nodes, edges, vp⟩ := s
  cases vp with
  | none =>
      simp [decodeGraphState, encodeGraphState, dictGet, withLoc,
        decodeListFrom_map decodeNode encodeNode decodeNode_encodeNode,
        decodeListFrom_map decodeEdge encodeEdge decodeEdge_encodeEdge,
        bind, Except.bind]
  | some v =>
      obtain ⟨x, y, z⟩ := v
      simp [decodeGraphState, encodeGraphState, dictGet, withLoc,
        decodeListFrom_map decodeNode encodeNode decodeNode_encodeNode,
        decodeListFrom_map decodeEdge encodeEdge decodeEdge_encodeEdge,
        decodeViewport_encodeViewport, encodeViewport, Except.map,
        bind, Except.bind]

/-! ## Claim theorems -/

/-- Claim C1: for every valid Diagram State `s` (any request body that
validates to `s`), saving and then loading returns the persisted dump of
`s`, which parses back to exactly `s` — nodes, edges and viewport, with the
optional edge fields already filled with their defaults by validation —
independent of what the store held before the save. -/
theorem save_then_load_roundtrip (st : Store) (body : Json) (s : GraphState)
    (h : decodeGraphState body = .ok s) :
    load_graph (save_graph st body).1 = .ok (encodeGraphState s) ∧
    decodeGraphState (encodeGraphState s) = .ok s := by
  refine ⟨?_, decodeGraphState_encodeGraphState s⟩
  simp [save_graph, h, load_graph]

/-- Witness for C1: a body whose single edge carries only `id`, `source`,
`target` validates with the defaults `"smoothstep"`, `false`, `null`, and
the saved state round-trips over a store that previously held unreadable
content. -/
theorem save_then_load_roundtrip_witness :
    decodeGraphState (.obj [("nodes", .arr []),
        ("edges", .arr [.obj [("id", .str "e1"), ("source", .str "a"), ("target", .str "b")]])]) =
      .ok ⟨[], [⟨"e1", "a", "b", some "smoothstep", some false, none⟩], none⟩ ∧
    (load_graph (save_graph ⟨some .malformed⟩ (.obj [("nodes", .arr []),
        ("edges", .arr [.obj [("id", .str "e1"), ("source", .str "a"), ("target", .str "b")]])])).1 =
      .ok (encodeGraphState ⟨[], [⟨"e1", "a", "b", some "smoothstep", some false, none⟩], none⟩) ∧
     decodeGraphState (encodeGraphState ⟨[], [⟨"e1", "a", "b", some "smoothstep", some false, none⟩], none⟩) =
      .ok ⟨[], [⟨"e1", "a", "b", some "smoothstep", some false, none⟩], none⟩) :=
  ⟨rfl, save_then_load_roundtrip ⟨some .malformed⟩ _ _ rfl⟩

set_option maxHeartbeats 1000000 in
/-- Claim C2: the concrete two-node scenario exports the claimed node,
edge and style lines (each line carries the fixed four-space indent the
generator emits), and in general the shape wrapping is selected by exact
match of `data.nodeType` against the fixed table, with the rounded
rectangle as fallback. -/
theorem export_concrete_and_shape_table :
    (∀ (t1 t2 : String) (p1 p2 : List (String × Json)),
      exportMermaid
        ⟨[⟨"n1", t1, p1, [("label", .str "Users"), ("nodeType", .str "PostgreSQL"), ("color", .str "#336")]⟩,
          ⟨"n2", t2, p2, [("label", .str "API"), ("nodeType", .str "default")]⟩],
         [⟨"e1", "n1", "n2", some "smoothstep", some false, none⟩], none⟩
        = "graph LR\n    n1[(Users)]\n    n2(API)\n\n    n1 --> n2\n\n    style n1 fill:#336") ∧
    (∀ ty lbl : String,
      shapeOf [("nodeType", .str ty)] lbl =
        if ty = "PostgreSQL" ∨ ty = "MySQL" ∨ ty = "MongoDB" ∨ ty = "Redis" ∨ ty = "Snowflake"
          then "[(" ++ lbl ++ ")]"
        else if ty = "LLM" ∨ ty = "VectorDB" ∨ ty = "ModelTraining"
          then "\x7b\x7b" ++ lbl ++ "\x7d\x7d"
        else if ty = "Router" ∨ ty = "Filter" then "\x7b" ++ lbl ++ "\x7d"
        else "(" ++ lbl ++ ")") := by
  constructor
  · intro t1 t2 p1 p2; rfl
  · intro ty lbl
    rw [show shapeOf [("nodeType", .str ty)] = (shape_map ty).getD fallbackShape from rfl]
    unfold shape_map
    split_ifs <;> first | rfl | tauto

/-- Counterexample to claim C3: a node whose `data.label` is present but
equal to the empty string renders with the empty label, not with its
`nodeType` — `dict.get` falls back only when the key is absent, there is
no emptiness test. -/
theorem label_empty_string_cex :
    labelOf [("label", .str ""), ("nodeType", .str "X")] = "" ∧
    labelOf [("label", .str ""), ("nodeType", .str "X")] ≠ "X" ∧
    nodeLine ⟨"n1", "custom", [], [("label", .str ""), ("nodeType", .str "X")]⟩ = "    n1()" := by
  refine ⟨rfl, ?_, rfl⟩
  intro h
  simp [labelOf, dictGetD, dictGet, pyStr] at h

/-- Claim C3 as amended: the label text is `data.label` whenever the key is
present — including when its value is the empty string — else
`data.nodeType` when present, else the literal `"Node"`. -/
theorem label_rule (data : List (String × Json)) :
    (∀ l : String, dictGet data "label" = some (.str l) → labelOf data = l) ∧
    (dictGet data "label" = none →
      ∀ t : String, dictGet data "nodeType" = some (.str t) → labelOf data = t) ∧
    (dictGet data "label" = none → dictGet data "nodeType" = none →
      labelOf data = "Node") := by
  refine ⟨?_, ?_, ?_⟩
  · intro l h; simp [labelOf, dictGetD, h, pyStr]
  · intro h t h2; simp [labelOf, dictGetD, h, h2, pyStr]
  · intro h h2; simp [labelOf, dictGetD, h, h2, pyStr]

/-- Witness for C3: each of the three label cases at a concrete data
dict. -/
theorem label_rule_witness :
    labelOf [("label", .str "Users"), ("nodeType", .str "PostgreSQL")] = "Users" ∧
    labelOf [("nodeType", .str "LLM")] = "LLM" ∧
    labelOf [("color", .str "#fff")] = "Node" :=
  ⟨(label_rule [("label", .str "Users"), ("nodeType", .str "PostgreSQL")]).1 "Users" rfl,
   (label_rule [("nodeType", .str "LLM")]).2.1 rfl "LLM" rfl,
   (label_rule [("color", .str "#fff")]).2.2 rfl rfl⟩

/-- Claim C4: node declarations, edge relation lines and style lines all
sanitize identifiers through the same substitution (`-` and space to `_`),
and the id `"a b-c"` yields `a_b_c` in all three kinds of line. -/
theorem sanitized_id_consistent :
    (∀ n : GraphNode, nodeLine n =
      "    " ++ sanitizeId n.id ++ shapeOf n.data (labelOf n.data)) ∧
    (∀ e : GraphEdge, edgeLine e =
      "    " ++ sanitizeId e.source ++ " --> " ++ sanitizeId e.target) ∧
    (∀ nodes : List GraphNode, styleLines nodes = nodes.filterMap (fun n =>
      match dictGet n.data "color" with
      | some c => if pyTruthy c then
          some ("    style " ++ sanitizeId n.id ++ " fill:" ++ pyStr c) else none
      | none => none)) ∧
    (∀ (t : String) (p : List (String × Json)),
      exportLines ⟨[⟨"a b-c", t, p, [("color", .str "red")]⟩],
        [⟨"e1", "a b-c", "a b-c", some "smoothstep", some false, none⟩], none⟩ =
      ["graph LR", "    a_b_c(Node)", "", "    a_b_c --> a_b_c", "",
       "    style a_b_c fill:red"]) :=
  ⟨fun _ => rfl, fun _ => rfl, fun _ => rfl, fun _ _ => rfl⟩

/-- Claim C5: loading from a store whose file is absent — never saved, or
just cleared — succeeds with exactly the canonical empty state. -/
theorem load_never_saved (st : Store) :
    load_graph ⟨none⟩ = .ok (.obj [("nodes", .arr []), ("edges", .arr []),
      ("viewport", .obj [("x", .num 0), ("y", .num 0), ("zoom", .num 1)])]) ∧
    load_graph (clear_graph st).1 = .ok (.obj [("nodes", .arr []), ("edges", .arr []),
      ("viewport", .obj [("x", .num 0), ("y", .num 0), ("zoom", .num 1)])]) :=
  ⟨rfl, rfl⟩

/-- Claim C6: clearing twice equals clearing once, every clear reports
success and leaves no file, and clearing a store that never held a file is
the same successful no-op. -/
theorem clear_idempotent (st : Store) :
    clear_graph (clear_graph st).1 = clear_graph st ∧
    (clear_graph st).2 = ⟨"success", "Graph cleared"⟩ ∧
    (clear_graph st).1.file = none ∧
    clear_graph ⟨none⟩ = (⟨none⟩, ⟨"success", "Graph cleared"⟩) :=
  ⟨rfl, rfl, rfl, rfl⟩

/-- Counterexample to claim C7: the file content `{}` is well-formed JSON
without the Diagram State shape, yet `load_graph` returns it successfully
instead of failing — the handler never re-validates what it reads. -/
theorem load_shape_unchecked_cex :
    load_graph ⟨some (.json (.obj []))⟩ = .ok (.obj []) ∧
    hasDiagramStateShape (.obj []) = false :=
  ⟨rfl, rfl⟩

/-- Claim C7 as amended: `load_graph` fails only when the stored bytes are
not parseable JSON; any parseable JSON document is returned verbatim as a
success, whether or not it has the Diagram State shape. -/
theorem load_error_only_unparseable :
    load_graph ⟨some .malformed⟩ = .error ∧
    (∀ j : Json, load_graph ⟨some (.json j)⟩ = .ok j) :=
  ⟨rfl, fun _ => rfl⟩

/-- Claim C8: a body that fails validation leaves the store exactly as it
was and surfaces the validation error; the concrete body whose first node
lacks `id` is rejected with the location `nodes -> 0 -> id`. -/
theorem save_validation_atomic :
    (∀ (st : Store) (body : Json) (e : ValidationError),
      decodeGraphState body = .error e → save_graph st body = (st, .validationError e)) ∧
    decodeGraphState (.obj [("nodes", .arr [.obj [("type", .str "default"),
        ("position", .obj []), ("data", .obj [])]]), ("edges", .arr [])]) =
      .error ⟨["nodes", "0", "id"], "Field required"⟩ := by
  refine ⟨?_, rfl⟩
  intro st body e h
  simp [save_graph, h]

/-- Witness for C8: the id-less body, posted onto a store holding `{}`,
leaves that store unchanged and reports the `nodes -> 0 -> id` error. -/
theorem save_validation_atomic_witness :
    save_graph ⟨some (.json (.obj []))⟩ (.obj [("nodes", .arr [.obj [("type", .str "default"),
        ("position", .obj []), ("data", .obj [])]]), ("edges", .arr [])]) =
      (⟨some (.json (.obj []))⟩,
       .validationError ⟨["nodes", "0", "id"], "Field required"⟩) :=
  save_validation_atomic.1 _ _ _ rfl

/-- Claim C9: exporting a state with no nodes and no edges produces the
header followed by the two blank section separators, i.e. exactly
`"graph LR\n\n"`, whatever the viewport is. -/
theorem export_empty_state (vp : Option Viewport) :
    exportMermaid ⟨[], [], vp⟩ = "graph LR\n\n" := rfl

/-- Claim C10: a state whose viewport is `none` is persisted with
`"viewport": null` — not with the `{x:0, y:0, zoom:1}` default — and a
subsequent load returns that document, which parses back to the state with
viewport still absent. -/
theorem viewport_absent_persists_null (st : Store) (s : GraphState)
    (h : s.viewport = none) :
    encodeGraphState s = .obj [("nodes", .arr (s.nodes.map encodeNode)),
      ("edges", .arr (s.edges.map encodeEdge)), ("viewport", .null)] ∧
    load_graph (save_graph st (encodeGraphState s)).1 = .ok (encodeGraphState s) ∧
    decodeGraphState (encodeGraphState s) = .ok s := by
  refine ⟨?_, ?_, decodeGraphState_encodeGraphState s⟩
  · simp [encodeGraphState, h]
  · simp [save_graph, decodeGraphState_encodeGraphState, load_graph]

/-- Witness for C10: the empty state with absent viewport. -/
theorem viewport_absent_persists_null_witness :
    encodeGraphState ⟨[], [], none⟩ = .obj [("nodes", .arr []), ("edges", .arr []),
      ("viewport", .null)] ∧
    load_graph (save_graph ⟨none⟩ (encodeGraphState ⟨[], [], none⟩)).1 =
      .ok (encodeGraphState ⟨[], [], none⟩) ∧
    decodeGraphState (encodeGraphState ⟨[], [], none⟩) = .ok ⟨[], [], none⟩ := by
  have h := viewport_absent_persists_null ⟨none⟩ ⟨[], [], none⟩ rfl
  simpa using h

end ArchFlow
